import Mathlib

/-!
Verification development for the Timelapser RTSP→HLS backend
(`src/backend/src` of the repository).

The Python source is shallowly embedded:
 * pure string / arithmetic manipulations become Lean functions on
   `String` / `Int` / `Nat` (Python character lists are modelled via
   `List Char`);
 * the in-memory session registry (`HLSService.active_sessions`), the
   supervisor's process table (`FFmpegManager.active_processes`) and the
   session directories on disk become an explicit `SystemState` record
   that every operation threads;
 * external effects (the `ffprobe` subprocess, the `ffmpeg` spawn, the
   filesystem `exists` test) are inputs: each operation takes the outcome
   of the external call as an argument and we quantify over all outcomes;
 * `uuid4()` is modelled as a fresh-identifier counter (`nextId`): it
   produces an identifier never produced before, which is the property
   session creation relies on;
 * `datetime.utcnow()` is modelled as an explicit `now : Int` argument
   (seconds); `timedelta` comparison becomes integer comparison;
 * Python exceptions become `Except` results.
-/

namespace Timelapser

/-! ## String helpers (models of the Python string operations used) -/

/-- Model of Python `pat in s` (substring test): does `pat` occur
consecutively inside `s`? Helper on character lists: is `p` an initial
run of `s`? -/
def leadsWith : List Char → List Char → Bool
  | [], _ => true
  | _ :: _, [] => false
  | a :: p, b :: s => a == b && leadsWith p s

/-- `hasSeq pat s` : does `pat` occur consecutively somewhere in `s`? -/
def hasSeq (pat : List Char) : List Char → Bool
  | [] => pat.isEmpty
  | c :: t => leadsWith pat (c :: t) || hasSeq pat t

/-- Model of Python `pat in s` on strings. -/
def strContains (s pat : String) : Bool := hasSeq pat.data s.data

/-- Model of Python `str.strip()` (remove surrounding whitespace). -/
def pyStrip (s : String) : String :=
  ⟨((s.data.dropWhile Char.isWhitespace).reverse.dropWhile Char.isWhitespace).reverse⟩

/-- Model of Python `str.lower()` (source codecs are ASCII). -/
def pyLower (s : String) : String := ⟨s.data.map Char.toLower⟩

/-- Model of the Python slice `s[:200]` (slices count characters). -/
def sliceTo200 (s : String) : String := ⟨s.data.take 200⟩

/-- Accumulator pass behind `pySplitSlash`. -/
def splitSlashAux (acc : List Char) : List Char → List String
  | [] => [⟨acc.reverse⟩]
  | c :: t => if c == '/' then ⟨acc.reverse⟩ :: splitSlashAux [] t
              else splitSlashAux (c :: acc) t

/-- Model of Python `s.split('/')`. -/
def pySplitSlash (s : String) : List String := splitSlashAux [] s.data

/-- Digit-run accumulator behind `pyInt?`. -/
def natOfDigitsAux : List Char → Nat → Option Nat
  | [], acc => some acc
  | c :: t, acc =>
      if c.isDigit then natOfDigitsAux t (acc * 10 + (c.toNat - 48)) else none

/-- Model of Python `int(s)`: optional surrounding whitespace, optional
sign, then decimal digits (digit-group underscores are not modelled; the
source only feeds it `ffprobe` frame-rate fractions such as `30000/1001`). -/
def pyInt? (s : String) : Option Int :=
  let cs := s.data.dropWhile Char.isWhitespace
  let cs := (cs.reverse.dropWhile Char.isWhitespace).reverse
  match cs with
  | '-' :: t => if t.isEmpty then none
                else (natOfDigitsAux t 0).map (fun n => -(n : Int))
  | '+' :: t => if t.isEmpty then none
                else (natOfDigitsAux t 0).map (fun n => (n : Int))
  | t => if t.isEmpty then none
         else (natOfDigitsAux t 0).map (fun n => (n : Int))

/-- Model of Python `round(num / den)` for a positive denominator:
round to nearest, ties to the even integer (the float division itself is
modelled as exact rational division). -/
def pyRoundAux (n d : Int) : Int :=
  if 2 * n.emod d < d then n.ediv d
  else if d < 2 * n.emod d then n.ediv d + 1
  else if (n.ediv d).emod 2 == 0 then n.ediv d else n.ediv d + 1

/-- Model of Python `round(n / d)` (`d ≠ 0`); a negative denominator is
normalised away since `n / d = (-n) / (-d)`. -/
def pyRound (n d : Int) : Int :=
  if d < 0 then pyRoundAux (-n) (-d) else pyRoundAux n d

/-! ## `core/config.py` — `Settings` (the fields the services consume) -/

/-- Embeds the relevant fields (and defaults) of `Settings`
(`src/backend/src/core/config.py`). -/
structure Settings where
  rtsp_connection_timeout : Nat := 10
  hls_segment_duration : Nat := 2
  hls_playlist_size : Nat := 3
  hls_output_dir : String := "/tmp/hls_streams"
  hls_cleanup_interval : Nat := 3600
  ffmpeg_hwaccel : Bool := true
  session_timeout : Int := 3600
  max_concurrent_connections : Nat := 1
deriving DecidableEq

/-- The global `settings` instance (all defaults). -/
def settings : Settings := {}

/-! ## `core/exceptions.py` — the typed errors the services raise -/

/-- The custom exceptions raised by `RTSPService`
(`src/backend/src/core/exceptions.py`), with their messages. -/
inductive ApiError where
  | validationError (msg : String)
  | authenticationError (msg : String)
  | timeoutError (msg : String)
  | rtspConnectionError (msg : String)
  | unsupportedCodecError (msg : String)
deriving DecidableEq

/-! ## `services/rtsp_service.py` — `RTSPService` -/

/-- Matches the regex character class `\d` (ASCII decimal digits; the
source URLs are ASCII). -/
def isDigitChar (c : Char) : Bool := c.isDigit

/-- Python `re` end anchor `$`: matches at the very end of the input, or
just before a trailing newline. -/
def atEnd : List Char → Bool
  | [] => true
  | [c] => c == '\n'
  | _ => false

/-- Matches `.*$`: `.` excludes `'\n'`, and `$` may sit before one
trailing newline. -/
def dotStarThenEnd : List Char → Bool
  | [] => true
  | ['\n'] => true
  | c :: t => c != '\n' && dotStarThenEnd t

/-- Matches the tail pattern `(/.*)?$` of `RTSP_URL_PATTERN`. -/
def pathOrEnd (r : List Char) : Bool :=
  atEnd r ||
  (match r with
   | '/' :: t => dotStarThenEnd t
   | _ => false)

/-- Matches `([^:/]+)(?::(\d{1,5}))?(/.*)?$` — host, optional port,
optional path.  The host class excludes exactly `':'` and `'/'`, so a
match forces the host to be the maximal such run; the port digits (at
most five) must likewise exhaust the digit run, since what follows must
start with `'/'` or be the end. -/
def hostPortPath (r : List Char) : Bool :=
  let host := r.takeWhile (fun c => c != ':' && c != '/')
  let rest := r.dropWhile (fun c => c != ':' && c != '/')
  !host.isEmpty &&
  (match rest with
   | ':' :: r2 =>
       let ds := r2.takeWhile isDigitChar
       let r3 := r2.dropWhile isDigitChar
       decide (1 ≤ ds.length ∧ ds.length ≤ 5) && pathOrEnd r3
   | _ => pathOrEnd rest)

/-- Matches `([^:+]):([^@]+)@` followed by the host part: the
user-information alternative of `RTSP_URL_PATTERN`.  The user name runs
to the first `':'` and the password to the first `'@'` (their classes
exclude exactly those delimiters). -/
def userinfoHostPortPath (r : List Char) : Bool :=
  let user := r.takeWhile (fun c => c != ':')
  let rest := r.dropWhile (fun c => c != ':')
  match rest with
  | ':' :: r2 =>
      let pw := r2.takeWhile (fun c => c != '@')
      let r3 := r2.dropWhile (fun c => c != '@')
      (match r3 with
       | '@' :: r4 => !user.isEmpty && !pw.isEmpty && hostPortPath r4
       | _ => false)
  | _ => false

/-- Embeds `RTSPService.validate_url_format`: does
`^rtsp://(?:([^:]+):([^@]+)@)?([^:/]+)(?::(\d{1,5}))?(/.*)?$`
match the URL?  A match either uses the optional user-information group
or does not — the disjunction below covers regex backtracking. -/
def validate_url_format (rtsp_url : String) : Bool :=
  let cs := rtsp_url.data
  leadsWith "rtsp://".data cs &&
  (let r := cs.drop 7
   userinfoHostPortPath r || hostPortPath r)

/-- Python truthiness of an optional string (`None` and `""` are falsy). -/
def truthy : Option String → Bool
  | none => false
  | some s => !s.isEmpty

/-- Splits `s` at the first occurrence of `"://"`, as Python
`s.split('://', 1)` does when the separator is present. -/
def splitScheme (s : String) : Option (String × String) :=
  (splitSchemeAux s.data).map (fun p => (⟨p.1⟩, ⟨p.2⟩))
where
  /-- Character-list worker: first occurrence of `"://"`. -/
  splitSchemeAux : List Char → Option (List Char × List Char)
  | [] => none
  | c :: t =>
      if leadsWith "://".data (c :: t) then some ([], t.drop 2)
      else (splitSchemeAux t).map (fun p => (c :: p.1, p.2))

/-- Embeds the credential-composition snippet duplicated verbatim at
`rtsp_service.py:84-87` (`test_connection`), `rtsp_service.py:186-189`
(`probe_stream_metadata`) and `ffmpeg_manager.py:70-73`
(`spawn_process`):

    if username and password:
        protocol, rest = rtsp_url.split('://', 1)
        url = f"{protocol}://{username}:{password}@{rest}"

When the separator is missing the source raises `ValueError` from the
tuple unpacking; that path is unreachable for `rtsp://` URLs and is
modelled as returning the URL unchanged. -/
def build_url_with_credentials (rtsp_url : String)
    (username password : Option String) : String :=
  if truthy username && truthy password then
    match splitScheme rtsp_url with
    | some (protocol, rest) =>
        protocol ++ "://" ++ username.getD "" ++ ":" ++ password.getD "" ++ "@" ++ rest
    | none => rtsp_url
  else rtsp_url

/-- `RTSPService.TIMEOUT_SECONDS`. -/
def TIMEOUT_SECONDS : Nat := 10

/-- The `ffprobe` invocation built by `RTSPService.test_connection`
(`rtsp_service.py:93-102`); its final argument is the probe URL
with credentials composed in. -/
def test_connection_cmd (rtsp_url : String)
    (username password : Option String) : List String :=
  ["ffprobe", "-rtsp_transport", "tcp",
   "-timeout", toString (TIMEOUT_SECONDS * 1000000),
   "-v", "error", "-select_streams", "v:0",
   "-show_entries", "stream=codec_name",
   "-of", "default=noprint_wrappers=1:nokey=1",
   build_url_with_credentials rtsp_url username password]

/-- The `ffprobe` invocation built by `RTSPService.probe_stream_metadata`
(`rtsp_service.py:192-201`). -/
def probe_metadata_cmd (rtsp_url : String)
    (username password : Option String) : List String :=
  ["ffprobe", "-rtsp_transport", "tcp",
   "-timeout", toString (TIMEOUT_SECONDS * 1000000),
   "-v", "error", "-select_streams", "v:0",
   "-show_entries", "stream=codec_name,width,height,r_frame_rate",
   "-of", "json",
   build_url_with_credentials rtsp_url username password]

/-- Outcome of running the connection-test `ffprobe` subprocess:
either `asyncio.wait_for` timed out, or the process exited with a
return code, stdout and stderr. -/
inductive ProbeResult where
  | timedOut
  | exited (returncode : Int) (stdout stderr : String)
deriving DecidableEq

/-- `RTSPService.SUPPORTED_CODECS`. -/
def SUPPORTED_CODECS : List String := ["h264", "hevc", "h265"]

/-- Embeds `RTSPService.test_connection` (`rtsp_service.py:58-171`):
URL validation, then classification of the probe outcome.  The
subprocess outcome is the `probe` argument. -/
def test_connection (rtsp_url : String) (_username _password : Option String)
    (probe : ProbeResult) : Except ApiError (Bool × String) :=
  if !validate_url_format rtsp_url then
    .error (.validationError
      "Invalid RTSP URL format. Expected: rtsp://hostname:port/path")
  else
    match probe with
    | .timedOut =>
        .error (.timeoutError "Connection timeout. Camera not responding.")
    | .exited rc _out err =>
        if rc != 0 then
          if strContains err "401" || strContains err "Unauthorized" then
            .error (.authenticationError
              "Authentication required. Please provide username and password.")
          else if strContains err "Connection refused" ||
                  strContains err "No route to host" then
            .error (.rtspConnectionError
              "Cannot reach camera. Check IP address and network connection.")
          else if strContains err "Connection timed out" then
            .error (.timeoutError "Connection timeout. Camera not responding.")
          else
            .error (.rtspConnectionError
              ("Failed to connect to camera: " ++ sliceTo200 err))
        else
          let codec := pyLower (pyStrip _out)
          if !SUPPORTED_CODECS.contains codec then
            .error (.unsupportedCodecError
              ("Unsupported video format. Camera must use H.264 or H.265 codec. Detected: "
                ++ codec))
          else
            .ok (true, if codec == "hevc" then "h265" else codec)

/-! ## `services/rtsp_service.py` — `probe_stream_metadata` -/

/-- `models/connection.py:27-31` — the `StreamMetadata` value object. -/
structure StreamMetadata where
  resolution : String
  codec : String
  fps : Int
deriving DecidableEq

/-- The pydantic field constraints on `StreamMetadata`
(`models/connection.py:27-31`): `codec` must match `^(h264|h265)$` and
`fps` must satisfy `ge=1, le=60`; constructing the model with other
values raises a pydantic `ValidationError`. -/
def StreamMetadata.isValid (md : StreamMetadata) : Bool :=
  (md.codec == "h264" || md.codec == "h265")
    && (decide (1 ≤ md.fps) && decide (md.fps ≤ 60))

/-- Outcome of the metadata `ffprobe` run as seen by
`probe_stream_metadata`.  `failure` stands for every path that lands in
a fallback of the source: nonzero return code, `asyncio` timeout, a JSON
parse error, an empty `streams` array, or any other raised exception.
`success` carries the fields of `streams[0]`; `none` models a key that
the JSON object does not carry (`dict.get` then supplies the default). -/
inductive MetadataProbeOutcome where
  | failure
  | success (width height : Option Nat) (codec_name r_frame_rate : Option String)
deriving DecidableEq

/-- Embeds the frame-rate computation of `probe_stream_metadata`
(`rtsp_service.py:236-242`): `num, den = map(int, fps_str.split('/'))`
then `round(num / den)`, with `30` on any parse or division error. -/
def parse_frame_rate (s : String) : Int :=
  match pySplitSlash s with
  | [a, b] =>
      (match pyInt? a, pyInt? b with
       | some num, some den => if den = 0 then 30 else pyRound num den
       | _, _ => 30)
  | _ => 30

/-- Embeds `RTSPService.probe_stream_metadata` (`rtsp_service.py:173-256`)
applied to the probe outcome: total — every failure path degrades to the
fixed default `{unknown, h264, 30}`. -/
def probe_stream_metadata (outcome : MetadataProbeOutcome) : StreamMetadata :=
  match outcome with
  | .failure => ⟨"unknown", "h264", 30⟩
  | .success w h cn fr =>
      let width := w.getD 0
      let height := h.getD 0
      let resolution :=
        if width != 0 && height != 0 then toString width ++ "x" ++ toString height
        else "unknown"
      let codec0 := pyLower (cn.getD "h264")
      let codec := if codec0 == "hevc" then "h265" else codec0
      let fps := parse_frame_rate (fr.getD "30/1")
      ⟨resolution, codec, fps⟩

/-! ## `services/ffmpeg_manager.py` — `FFmpegManager` -/

/-- The `ffmpeg` command built by `FFmpegManager.spawn_process`
(`ffmpeg_manager.py:58-96`).  The `session_id` parameter of the source
is used only for logging and is omitted. -/
def spawn_cmd (rtsp_url output_dir : String)
    (username password : Option String) (hwaccel : Bool) : List String :=
  let url := build_url_with_credentials rtsp_url username password
  let playlist_path := output_dir ++ "/playlist.m3u8"
  let segment_pattern := output_dir ++ "/segment_%03d.ts"
  (if hwaccel then ["ffmpeg", "-hwaccel", "auto"] else ["ffmpeg"]) ++
  ["-rtsp_transport", "tcp", "-i", url, "-c:v", "copy", "-c:a", "aac",
   "-f", "hls", "-hls_time", "2", "-hls_list_size", "5",
   "-hls_flags", "delete_segments",
   "-hls_segment_filename", segment_pattern, playlist_path]

/-- An entry of `FFmpegManager.active_processes`: the `FFmpegProcess`
wrapper (`ffmpeg_manager.py:13-37`) — whether `process.poll()` currently
reports the process alive, and its output directory. -/
structure FFmpegProc where
  running : Bool
  output_dir : String
deriving DecidableEq

/-- An entry of `HLSService.active_sessions`: the `HLSSession` record
(`hls_service.py:16-48`).  Identifiers are the fresh-counter model of
`uuid4()`; timestamps are seconds. -/
structure HLSSession where
  session_id : Nat
  rtsp_url : String
  output_dir : String
  stream_metadata : StreamMetadata
  created_at : Int
  last_activity : Int
deriving DecidableEq

/-- The mutable state the services share: the registry map
(`HLSService.active_sessions`), the supervisor's process table
(`FFmpegManager.active_processes`), the session directories that exist
on disk, and the fresh-identifier counter modelling `uuid4()`.  The two
maps are association lists keyed by session identifier (Python `dict`s,
so keys are unique in every reachable state). -/
structure SystemState where
  active_sessions : List HLSSession
  active_processes : List (Nat × FFmpegProc)
  dirs : List String
  nextId : Nat
deriving DecidableEq

/-- The state at service start-up: both maps empty. -/
def initialState : SystemState := ⟨[], [], [], 0⟩

/-- Embeds `HLSService.get_session` (`hls_service.py:174-176`):
`self.active_sessions.get(session_id)`. -/
def get_session (st : SystemState) (session_id : Nat) : Option HLSSession :=
  st.active_sessions.find? (fun s => s.session_id == session_id)

/-- Dictionary lookup in `FFmpegManager.active_processes`. -/
def lookupProc (st : SystemState) (session_id : Nat) : Option FFmpegProc :=
  (st.active_processes.find? (fun e => e.1 == session_id)).map (·.2)

/-- Embeds `FFmpegManager.is_session_active` (`ffmpeg_manager.py:149-153`):
absent from the table → `False`, otherwise the process's `is_running()`. -/
def mgr_is_session_active (st : SystemState) (session_id : Nat) : Bool :=
  match lookupProc st session_id with
  | none => false
  | some pr => pr.running

/-- Embeds `FFmpegManager.kill_process` (`ffmpeg_manager.py:119-133`):
no-op when the table has no entry; otherwise terminate the process,
remove its output directory (`_cleanup_directory`) and delete the table
entry. -/
def kill_process (st : SystemState) (session_id : Nat) : SystemState :=
  match lookupProc st session_id with
  | none => st
  | some pr =>
      { st with
        dirs := st.dirs.filter (fun d => !(d == pr.output_dir)),
        active_processes :=
          st.active_processes.filter (fun e => !(e.1 == session_id)) }

/-- Deletion of the registry entry (`del self.active_sessions[session_id]`,
`hls_service.py:190`). -/
def remove_session (st : SystemState) (session_id : Nat) : SystemState :=
  { st with
    active_sessions :=
      st.active_sessions.filter (fun s => !(s.session_id == session_id)) }

/-- The state right after the first teardown statement executed inside
`HLSService.destroy_session` for a present session: the source calls
`self.ffmpeg_manager.kill_process(session_id)` (`hls_service.py:187`)
before deleting the registry entry (`hls_service.py:190`). -/
def destroy_session_after_first_step (st : SystemState) (session_id : Nat) :
    SystemState :=
  kill_process st session_id

/-- Embeds `HLSService.destroy_session` (`hls_service.py:178-191`):
return unchanged when the identifier is not in the map; otherwise kill
the process (which also removes the directory), then delete the map
entry. -/
def destroy_session (st : SystemState) (session_id : Nat) : SystemState :=
  if (get_session st session_id).isSome then
    remove_session (kill_process st session_id) session_id
  else st

/-- Insertion into the directory set when `mkdir(exist_ok=True)` runs
(`FFmpegManager.create_session_directory`, `ffmpeg_manager.py:51-56`). -/
def insertDir (dirs : List String) (d : String) : List String :=
  if dirs.contains d then dirs else dirs ++ [d]

/-- The errors `HLSService.create_session` can propagate. -/
inductive CreateErr where
  /-- an exception raised by `RTSPService.test_connection` -/
  | probeError (e : ApiError)
  /-- `raise Exception("RTSP connection test failed")` (`hls_service.py:128`) -/
  | connTestFailed
  /-- pydantic `ValidationError` from `StreamMetadata(...)`
      (`hls_service.py:132-136` with `models/connection.py:27-31`) -/
  | metadataValidation
  /-- the exception re-raised when the `ffmpeg` spawn fails
      (`hls_service.py:154-158`) -/
  | spawnFailure
deriving DecidableEq

/-- The part of `HLSService.create_session` that runs after both probe
awaits have returned (`hls_service.py:138-172`): generate the identifier,
create the session directory, spawn `ffmpeg` (outcome `spawnOk`), then —
only on success — insert the process-table entry and the session record.
On spawn failure the directory just created is removed and the error is
re-raised. -/
def create_session_tail (cfg : Settings) (st : SystemState)
    (rtsp_url : String) (md : StreamMetadata) (now : Int) (spawnOk : Bool) :
    Except CreateErr Nat × SystemState :=
  let session_id := st.nextId
  let output_dir := cfg.hls_output_dir ++ "/" ++ toString session_id
  let st1 := { st with nextId := st.nextId + 1,
                       dirs := insertDir st.dirs output_dir }
  if spawnOk then
    let st2 := { st1 with
      active_processes :=
        st1.active_processes ++ [(session_id, (⟨true, output_dir⟩ : FFmpegProc))] }
    let sess : HLSSession := ⟨session_id, rtsp_url, output_dir, md, now, now⟩
    (.ok session_id, { st2 with active_sessions := st2.active_sessions ++ [sess] })
  else
    (.error .spawnFailure,
     { st1 with dirs := st1.dirs.filter (fun d => !(d == output_dir)) })

/-- Embeds `HLSService.create_session` (`hls_service.py:109-172`).  The
outcomes of the two probe subprocesses and of the `ffmpeg` spawn are the
`connProbe`, `metaProbe` and `spawnOk` arguments.  Constructing
`StreamMetadata` applies the pydantic field constraints. -/
def create_session (cfg : Settings) (st : SystemState) (rtsp_url : String)
    (username password : Option String) (connProbe : ProbeResult)
    (metaProbe : MetadataProbeOutcome) (spawnOk : Bool) (now : Int) :
    Except CreateErr Nat × SystemState :=
  match test_connection rtsp_url username password connProbe with
  | .error e => (.error (.probeError e), st)
  | .ok (success, _codec) =>
      if !success then (.error .connTestFailed, st)
      else
        let md := probe_stream_metadata metaProbe
        if !md.isValid then (.error .metadataValidation, st)
        else create_session_tail cfg st rtsp_url md now spawnOk

/-! ## `api/routes/camera.py` — the HTTP boundary -/

/-- The HTTP error statuses the `camera` routes translate failures into. -/
inductive HttpError where
  | badRequest400
  | unauthorized401
  | notFound404
  | requestTimeout408
  | unsupportedMedia415
  | connectionLimit429
  | serviceUnavailable503
  | internalError500
deriving DecidableEq

/-- The exception dispatch of `connect_camera` (`camera.py:108-190`):
each service error maps to an HTTP status; the pydantic error and the
re-raised spawn exception fall into the final `except Exception`
(→ 500). -/
def createErrToHttp : CreateErr → HttpError
  | .probeError (.validationError _) => .badRequest400
  | .probeError (.authenticationError _) => .unauthorized401
  | .probeError (.timeoutError _) => .requestTimeout408
  | .probeError (.unsupportedCodecError _) => .unsupportedMedia415
  | .probeError (.rtspConnectionError _) => .serviceUnavailable503
  | .connTestFailed => .internalError500
  | .metadataValidation => .internalError500
  | .spawnFailure => .internalError500

/-- Embeds the `POST /camera/connect` handler (`camera.py:79-190`):
admission check against `settings.max_concurrent_connections` first
(connection-limit error, nothing mutated), then `create_session`. -/
def connect_camera (cfg : Settings) (st : SystemState) (rtsp_url : String)
    (username password : Option String) (connProbe : ProbeResult)
    (metaProbe : MetadataProbeOutcome) (spawnOk : Bool) (now : Int) :
    Except HttpError Nat × SystemState :=
  if st.active_sessions.length ≥ cfg.max_concurrent_connections then
    (.error .connectionLimit429, st)
  else
    match create_session cfg st rtsp_url username password
            connProbe metaProbe spawnOk now with
    | (.ok session_id, st') => (.ok session_id, st')
    | (.error e, st') => (.error (createErrToHttp e), st')

/-- Embeds the `POST /camera/disconnect` handler (`camera.py:193-219`):
404 when the session is unknown, otherwise `destroy_session`. -/
def disconnect_camera (st : SystemState) (session_id : Nat) :
    Except HttpError Nat × SystemState :=
  if (get_session st session_id).isSome then
    (.ok session_id, destroy_session st session_id)
  else
    (.error .notFound404, st)

/-! ## `services/hls_service.py` — the periodic reaper -/

/-- Embeds `HLSService._cleanup_expired_sessions` (`hls_service.py:76-91`):
collect every session whose idle time strictly exceeds
`settings.session_timeout`, then destroy each collected identifier. -/
def cleanup_expired_sessions (cfg : Settings) (now : Int)
    (st : SystemState) : SystemState :=
  let expired :=
    (st.active_sessions.filter
      (fun s => decide (now - s.last_activity > cfg.session_timeout))).map
      (·.session_id)
  expired.foldl (fun acc sid => destroy_session acc sid) st

/-- Embeds `HLSService._monitor_ffmpeg_processes` (`hls_service.py:93-107`):
collect every session whose `ffmpeg` process the supervisor no longer
reports alive, then destroy each collected identifier. -/
def monitor_ffmpeg_processes (st : SystemState) : SystemState :=
  let crashed :=
    (st.active_sessions.map (·.session_id)).filter
      (fun sid => !mgr_is_session_active st sid)
  crashed.foldl (fun acc sid => destroy_session acc sid) st

/-- One sweep of the reaper loop body (`_periodic_cleanup`,
`hls_service.py:66-74`): expire idle sessions, then reap crashed ones. -/
def reaper_sweep (cfg : Settings) (now : Int) (st : SystemState) : SystemState :=
  monitor_ffmpeg_processes (cleanup_expired_sessions cfg now st)

/-! ## `hls_service.py` / `camera.py` — playlist and segment lookup -/

/-- `pathlib`'s `/` join: an absolute right operand replaces the left
one (`HLSSession.get_segment_path`, `hls_service.py:42-44`). -/
def pathJoin (dir file : String) : String :=
  if leadsWith "/".data file.data then file else dir ++ "/" ++ file

/-- Embeds `HLSService.get_segment_path` (`hls_service.py:206-211`):
`None` when the session is unknown, otherwise the joined path.  This is
pure path construction — no filesystem access. -/
def hls_get_segment_path (st : SystemState) (session_id : Nat)
    (segment_file : String) : Option String :=
  (get_session st session_id).map (fun s => pathJoin s.output_dir segment_file)

/-- `HLSSession.update_activity` applied through the registry
(`camera.py:292-295` with `hls_service.py:46-48`). -/
def update_activity (st : SystemState) (session_id : Nat) (now : Int) :
    SystemState :=
  { st with
    active_sessions := st.active_sessions.map
      (fun s => if s.session_id == session_id
                then { s with last_activity := now } else s) }

/-- Responses of the `GET /camera/stream/{id}/{segment}` handler. -/
inductive SegmentResp where
  | invalidRequest
  | segmentNotFound
  | fileResponse (path : String)
deriving DecidableEq

/-- Embeds the `get_segment` handler (`camera.py:259-303`).  `fsExists`
is the filesystem's answer to `Path.exists`; the middle component of the
result lists every path the handler touched on the filesystem (the
`exists` test and the `FileResponse`, which read the same path). -/
def get_segment_route (st : SystemState) (session_id : Nat)
    (segment_file : String) (fsExists : String → Bool) (now : Int) :
    SegmentResp × List String × SystemState :=
  if strContains segment_file ".." || strContains segment_file "/" ||
     strContains segment_file "\\" then
    (.invalidRequest, [], st)
  else
    match hls_get_segment_path st session_id segment_file with
    | none => (.segmentNotFound, [], st)
    | some p =>
        if fsExists p then (.fileResponse p, [p], update_activity st session_id now)
        else (.segmentNotFound, [p], st)

/-! ## Interleaving model of concurrent `connect` requests

`connect_camera` runs on the `asyncio` event loop.  Its admission check
(`camera.py:87`) is synchronous, but `create_session` suspends at
`await RTSPService.test_connection(...)` (`hls_service.py:125`) and at
`await RTSPService.probe_stream_metadata(...)` (`hls_service.py:131`)
before the registry insertion; other request handlers run during those
suspensions.  A connect request is therefore split into two atomic
steps: the admission check, and the post-await tail. -/

/-- The scheduling phase of one in-flight connect request. -/
inductive CreatePhase where
  /-- arrived, admission check not yet executed -/
  | ready
  /-- passed the admission check, suspended in the probe awaits -/
  | admitted
  /-- inserted its record and returned the identifier -/
  | succeeded (session_id : Nat)
  /-- failed the admission check with the connection-limit error -/
  | rejected
deriving DecidableEq

/-- One scheduler step of a connect request whose probes succeed with
metadata `md`: either its admission check (`camera.py:87-90`) or the
synchronous post-await tail of `create_session`. -/
def connect_step (cfg : Settings) (rtsp_url : String) (md : StreamMetadata)
    (now : Int) (st : SystemState) (ph : CreatePhase) :
    SystemState × CreatePhase :=
  match ph with
  | .ready =>
      if st.active_sessions.length ≥ cfg.max_concurrent_connections then
        (st, .rejected)
      else (st, .admitted)
  | .admitted =>
      (match create_session_tail cfg st rtsp_url md now true with
       | (.ok session_id, st') => (st', .succeeded session_id)
       | (.error _, st') => (st', .rejected))
  | ph => (st, ph)

/-- A burst of simultaneous connect requests: the shared state plus the
phase of each request. -/
structure BurstState where
  sys : SystemState
  tasks : List CreatePhase
deriving DecidableEq

/-- Runs an event-loop schedule (a list of task indices) over a burst of
connect requests. -/
def run_burst (cfg : Settings) (rtsp_url : String) (md : StreamMetadata)
    (now : Int) : List Nat → BurstState → BurstState
  | [], b => b
  | i :: rest, b =>
      match b.tasks.get? i with
      | none => run_burst cfg rtsp_url md now rest b
      | some ph =>
          let p := connect_step cfg rtsp_url md now b.sys ph
          run_burst cfg rtsp_url md now rest
            { sys := p.1, tasks := b.tasks.set i p.2 }

/-! ## Concrete test fixtures used by scenarios and witnesses -/

/-- The camera URL of the spec's scenarios. -/
def camUrl : String := "rtsp://cam.local:554/live"

/-- A connection probe that exits cleanly reporting an `h264` stream. -/
def goodConn : ProbeResult := .exited 0 "h264\n" ""

/-- A metadata probe reporting 1080p `h264` at 30 fps. -/
def goodMeta : MetadataProbeOutcome :=
  .success (some 1920) (some 1080) (some "h264") (some "30/1")

/-- A metadata probe reporting a 120 fps stream (`r_frame_rate = "120/1"`). -/
def fastMeta : MetadataProbeOutcome :=
  .success (some 1920) (some 1080) (some "h264") (some "120/1")

/-- Fixture metadata value. -/
def exMeta : StreamMetadata := ⟨"1920x1080", "h264", 30⟩

/-- Fixture session with identifier `0`. -/
def exSess : HLSSession := ⟨0, camUrl, "/tmp/hls_streams/0", exMeta, 0, 0⟩

/-- Fixture state holding exactly the session `exSess`, its process and
its directory. -/
def exState : SystemState :=
  ⟨[exSess], [(0, ⟨true, "/tmp/hls_streams/0"⟩)], ["/tmp/hls_streams/0"], 1⟩

/-- State after the scenario's first successful connect. -/
def seqState1 : SystemState :=
  (connect_camera settings initialState camUrl none none goodConn goodMeta true 100).2

/-- State after the scenario's rejected second connect. -/
def seqState2 : SystemState :=
  (connect_camera settings seqState1 camUrl none none goodConn goodMeta true 200).2

/-- State after disconnecting session `0`. -/
def seqState3 : SystemState := (disconnect_camera seqState2 0).2

/-! ## Generic association-list lemmas -/

/-- `find?` is unchanged by a `filter` that keeps everything the
searched-for predicate accepts. -/
theorem find?_filter_of_imp {α : Type} (p q : α → Bool) (l : List α)
    (h : ∀ x, p x = true → q x = true) :
    (l.filter q).find? p = l.find? p := by
  induction l with
  | nil => rfl
  | cons a t ih =>
      by_cases hq : q a = true
      · rw [List.filter_cons_of_pos hq]
        by_cases hp : p a = true
        · rw [List.find?_cons_of_pos _ hp, List.find?_cons_of_pos _ hp]
        · rw [List.find?_cons_of_neg _ hp, List.find?_cons_of_neg _ hp]
          exact ih
      · have hp : ¬p a = true := fun hpa => hq (h a hpa)
        rw [List.filter_cons_of_neg hq, List.find?_cons_of_neg _ hp]
        exact ih

/-- Two members of a list whose identifiers are pairwise distinct and
whose identifiers agree are the same record. -/
theorem eq_of_mem_nodup_id {l : List HLSSession} {a b : HLSSession}
    (ha : a ∈ l) (hb : b ∈ l) (hnd : (l.map (·.session_id)).Nodup)
    (h : a.session_id = b.session_id) : a = b := by
  induction l with
  | nil => cases ha
  | cons x t ih =>
      rw [List.map_cons, List.nodup_cons] at hnd
      rcases List.mem_cons.1 ha with rfl | ha' <;>
        rcases List.mem_cons.1 hb with rfl | hb'
      · rfl
      · exact absurd (h ▸ List.mem_map_of_mem (·.session_id) hb') hnd.1
      · exact absurd (h ▸ List.mem_map_of_mem (·.session_id) ha') hnd.1
      · exact ih ha' hb' hnd.2

/-- In a registry list with pairwise-distinct identifiers, looking a
member's identifier up returns that member. -/
theorem find?_id_of_mem_nodup {l : List HLSSession} {s : HLSSession}
    (hmem : s ∈ l) (hnd : (l.map (·.session_id)).Nodup) :
    l.find? (fun x => x.session_id == s.session_id) = some s := by
  induction l with
  | nil => cases hmem
  | cons x t ih =>
      rw [List.map_cons, List.nodup_cons] at hnd
      rcases List.mem_cons.1 hmem with rfl | hmem'
      · rw [List.find?_cons_of_pos _ (by simp)]
      · have hx : (x.session_id == s.session_id) = false := by
          cases hb : (x.session_id == s.session_id)
          · rfl
          · exfalso
            have hx2 : x.session_id = s.session_id := by simpa using hb
            exact hnd.1 (hx2 ▸ List.mem_map_of_mem (·.session_id) hmem')
        rw [show List.find? (fun x => x.session_id == s.session_id) (x :: t) =
              List.find? (fun x => x.session_id == s.session_id) t by
            simp [List.find?, hx]]
        exact ih hmem' hnd.2

/-! ## Lemmas on `destroy_session` -/

/-- `kill_process` leaves the registry map untouched. -/
theorem kill_process_sessions (st : SystemState) (sid : Nat) :
    (kill_process st sid).active_sessions = st.active_sessions := by
  unfold kill_process
  cases lookupProc st sid <;> rfl

/-- Destroying one identifier does not change the lookup of another. -/
theorem get_session_destroy_ne (st : SystemState) {a sid : Nat}
    (h : a ≠ sid) :
    get_session (destroy_session st a) sid = get_session st sid := by
  unfold destroy_session
  split
  · show get_session (remove_session (kill_process st a) a) sid = _
    unfold get_session remove_session
    simp only [kill_process_sessions]
    exact find?_filter_of_imp _ _ _ (by
      intro x hx
      have hxe : x.session_id = sid := by simpa using hx
      simp [hxe, h.symm])
  · rfl

/-- Destroying an identifier removes it from the registry. -/
theorem get_session_destroy_self (st : SystemState) (sid : Nat) :
    get_session (destroy_session st sid) sid = none := by
  unfold destroy_session
  split
  · show get_session (remove_session (kill_process st sid) sid) sid = none
    unfold get_session remove_session
    refine List.find?_eq_none.2 ?_
    intro x hx
    have := (List.mem_filter.1 hx).2
    simp_all
  · next h => exact Option.not_isSome_iff_eq_none.1 (by simpa using h)

/-- An absent identifier stays absent across any destroy. -/
theorem get_session_destroy_none (st : SystemState) (a sid : Nat)
    (h : get_session st sid = none) :
    get_session (destroy_session st a) sid = none := by
  by_cases ha : a = sid
  · subst ha; exact get_session_destroy_self st a
  · rw [get_session_destroy_ne st ha]; exact h

/-- An absent identifier stays absent across a fold of destroys. -/
theorem foldl_destroy_none {sid : Nat} (l : List Nat) (st : SystemState)
    (h : get_session st sid = none) :
    get_session (l.foldl (fun acc s => destroy_session acc s) st) sid = none := by
  induction l generalizing st with
  | nil => exact h
  | cons a t ih => exact ih _ (get_session_destroy_none st a sid h)

/-- Folding destroys over a list removes every identifier in the list. -/
theorem foldl_destroy_mem {sid : Nat} (l : List Nat) (st : SystemState)
    (h : sid ∈ l) :
    get_session (l.foldl (fun acc s => destroy_session acc s) st) sid = none := by
  induction l generalizing st with
  | nil => cases h
  | cons a t ih =>
      rcases List.mem_cons.1 h with rfl | h'
      · exact foldl_destroy_none t _ (get_session_destroy_self st sid)
      · exact ih _ h'

/-- Folding destroys over a list not containing an identifier leaves its
lookup unchanged. -/
theorem foldl_destroy_not_mem {sid : Nat} (l : List Nat) (st : SystemState)
    (h : sid ∉ l) :
    get_session (l.foldl (fun acc s => destroy_session acc s) st) sid =
      get_session st sid := by
  induction l generalizing st with
  | nil => rfl
  | cons a t ih =>
      have : a ≠ sid := fun e => h (e ▸ List.mem_cons_self a t)
      rw [List.foldl_cons, ih _ (fun hm => h (List.mem_cons_of_mem a hm)),
          get_session_destroy_ne st this]

/-- Destroying one identifier does not change another identifier's
process-table entry. -/
theorem lookupProc_destroy_ne (st : SystemState) {a sid : Nat}
    (h : a ≠ sid) :
    lookupProc (destroy_session st a) sid = lookupProc st sid := by
  unfold destroy_session
  split
  · show lookupProc (remove_session (kill_process st a) a) sid = _
    have hrm : ∀ x : SystemState, (remove_session x a).active_processes =
        x.active_processes := fun _ => rfl
    unfold lookupProc
    rw [show (remove_session (kill_process st a) a).active_processes =
          (kill_process st a).active_processes from rfl]
    unfold kill_process
    cases hl : lookupProc st a
    · rfl
    · show ((st.active_processes.filter _).find? _).map _ = _
      rw [find?_filter_of_imp _ _ _ (by
        intro x hx
        have hxe : x.1 = sid := by simpa using hx
        simp [hxe, h.symm])]
  · rfl

/-- A fold of destroys over other identifiers preserves a
process-table lookup. -/
theorem foldl_destroy_procs_not_mem {sid : Nat} (l : List Nat)
    (st : SystemState) (h : sid ∉ l) :
    lookupProc (l.foldl (fun acc s => destroy_session acc s) st) sid =
      lookupProc st sid := by
  induction l generalizing st with
  | nil => rfl
  | cons a t ih =>
      have : a ≠ sid := fun e => h (e ▸ List.mem_cons_self a t)
      rw [List.foldl_cons, ih _ (fun hm => h (List.mem_cons_of_mem a hm)),
          lookupProc_destroy_ne st this]

/-! ## Claim theorems -/

/-- C1: In every registry state whose live session count is at least the
configured maximum, `connect` fails with the connection-limit error and
the state — in particular the session map — is unchanged; and in the
sequential scenario at the default maximum of `1`, a first create
succeeds with identifier `0`, a second fails with connection-limit
leaving the state as it was, after disconnecting `0` a third create
succeeds with the fresh identifier `1 ≠ 0`. -/
theorem connect_admission_and_sequential_scenario :
    (∀ (cfg : Settings) (st : SystemState) (url : String)
       (u p : Option String) (cp : ProbeResult) (mp : MetadataProbeOutcome)
       (sOk : Bool) (now : Int),
       st.active_sessions.length ≥ cfg.max_concurrent_connections →
       connect_camera cfg st url u p cp mp sOk now =
         (.error .connectionLimit429, st))
    ∧ settings.max_concurrent_connections = 1
    ∧ (connect_camera settings initialState camUrl none none
         goodConn goodMeta true 100).1 = .ok 0
    ∧ (connect_camera settings seqState1 camUrl none none
         goodConn goodMeta true 200).1 = .error .connectionLimit429
    ∧ seqState2 = seqState1
    ∧ (disconnect_camera seqState2 0).1 = .ok 0
    ∧ (connect_camera settings seqState3 camUrl none none
         goodConn goodMeta true 300).1 = .ok 1
    ∧ (1 : Nat) ≠ 0 := by
  refine ⟨?_, rfl, rfl, rfl, rfl, rfl, rfl, by decide⟩
  intro cfg st url u p cp mp sOk now h
  unfold connect_camera
  rw [if_pos h]

/-- Closed instance of C1's universal part: with the default maximum of
`1` and a state already holding one session, connect is rejected with
the connection-limit error and the state is unchanged. -/
theorem connect_admission_and_sequential_scenario_w :
    connect_camera settings exState camUrl none none goodConn goodMeta
      true 500 = (.error .connectionLimit429, exState) :=
  connect_admission_and_sequential_scenario.1 settings exState camUrl
    none none goodConn goodMeta true 500 (by decide)

/-- The burst of two simultaneous connect requests whose admission
checks both run before either registry insertion (schedule
`[0, 1, 0, 1]`): task 0's check, task 1's check, task 0's tail,
task 1's tail. -/
def burstDemo : BurstState :=
  run_burst settings camUrl exMeta 100 [0, 1, 0, 1]
    ⟨initialState, [.ready, .ready]⟩

/-- C2: the admission check and the record insertion of `create` are NOT
atomic with respect to concurrent `create` calls.  The check
(`camera.py:87`) runs before `create_session` suspends at its probe
awaits (`hls_service.py:125,131`), so under the schedule in which both
checks run before either insertion, both of two simultaneous connect
requests pass a cap of `maximum = 1`, both succeed, and two sessions are
concurrently active — the code contradicts the spec's stated atomicity
requirement. -/
theorem burst_admission_race :
    settings.max_concurrent_connections = 1
    ∧ burstDemo.tasks = [.succeeded 0, .succeeded 1]
    ∧ burstDemo.sys.active_sessions.length = 2 := by
  exact ⟨rfl, rfl, rfl⟩

/-- C3: when the `ffmpeg` spawn fails during `create_session`, the error
propagates, the registry map and the supervisor's process table are left
exactly as they were, and the working directory allocated in this call
does not exist afterwards. -/
theorem spawn_failure_rollback (cfg : Settings) (st : SystemState)
    (url : String) (u p : Option String) (cp : ProbeResult)
    (mp : MetadataProbeOutcome) (now : Int) (c : String)
    (hconn : test_connection url u p cp = .ok (true, c))
    (hmd : (probe_stream_metadata mp).isValid = true) :
    (create_session cfg st url u p cp mp false now).1 = .error .spawnFailure
    ∧ (create_session cfg st url u p cp mp false now).2.active_sessions =
        st.active_sessions
    ∧ (create_session cfg st url u p cp mp false now).2.active_processes =
        st.active_processes
    ∧ (cfg.hls_output_dir ++ "/" ++ toString st.nextId) ∉
        (create_session cfg st url u p cp mp false now).2.dirs := by
  refine ⟨?_, ?_, ?_, ?_⟩
  · simp [create_session, hconn, hmd, create_session_tail]
  · simp [create_session, hconn, hmd, create_session_tail]
  · simp [create_session, hconn, hmd, create_session_tail]
  · simp [create_session, hconn, hmd, create_session_tail, List.mem_filter]

/-- Closed instance of C3: a spawn failure at the fixture inputs leaves
the empty registry and process table empty, and the fresh directory
absent. -/
theorem spawn_failure_rollback_w :
    (create_session settings initialState camUrl none none goodConn
        goodMeta false 100).1 = .error .spawnFailure
    ∧ (create_session settings initialState camUrl none none goodConn
        goodMeta false 100).2.active_sessions = initialState.active_sessions
    ∧ (create_session settings initialState camUrl none none goodConn
        goodMeta false 100).2.active_processes = initialState.active_processes
    ∧ (settings.hls_output_dir ++ "/" ++ toString initialState.nextId) ∉
        (create_session settings initialState camUrl none none goodConn
          goodMeta false 100).2.dirs :=
  spawn_failure_rollback settings initialState camUrl none none goodConn
    goodMeta 100 "h264" rfl rfl

/-- C4 counterexample: `destroy_session` does NOT remove the record from
the map before instructing the supervisor.  The source calls
`ffmpeg_manager.kill_process` first (`hls_service.py:187`) and deletes
the map entry afterwards (`hls_service.py:190`): in the concrete state
`exState`, after the first teardown step the supervisor has already
stopped the process and removed the directory, yet a lookup still
returns the session. -/
theorem destroy_map_removal_not_first_cex :
    (destroy_session_after_first_step exState 0).active_processes = []
    ∧ (destroy_session_after_first_step exState 0).dirs = []
    ∧ get_session (destroy_session_after_first_step exState 0) 0 = some exSess
    ∧ ¬ get_session (destroy_session_after_first_step exState 0) 0 = none := by
  exact ⟨rfl, rfl, rfl, by decide⟩

/-- C4 (amended): for every identifier present in the registry,
`destroy(id)` first instructs the supervisor to stop the process and
remove the directory and only afterwards removes the record from the
map; a lookup performed after the supervisor step but before the map
removal still reports the session, and once `destroy` returns the
session is absent. -/
theorem destroy_supervisor_first_then_map (st : SystemState) (sid : Nat)
    (h : (get_session st sid).isSome = true) :
    destroy_session st sid = remove_session (kill_process st sid) sid
    ∧ get_session (destroy_session_after_first_step st sid) sid =
        get_session st sid
    ∧ get_session (destroy_session st sid) sid = none := by
  refine ⟨by unfold destroy_session; rw [if_pos h], ?_, ?_⟩
  · show get_session (kill_process st sid) sid = get_session st sid
    unfold get_session
    rw [kill_process_sessions]
  · exact get_session_destroy_self st sid

/-- Closed instance of C4's amended claim at the fixture state. -/
theorem destroy_supervisor_first_then_map_w :
    destroy_session exState 0 = remove_session (kill_process exState 0) 0
    ∧ get_session (destroy_session_after_first_step exState 0) 0 =
        get_session exState 0
    ∧ get_session (destroy_session exState 0) 0 = none :=
  destroy_supervisor_first_then_map exState 0 (by decide)

/-- C8: every segment lookup whose filename contains a parent-directory
token `..` or a path separator `/` or `\` is rejected with the
invalid-request error before any filesystem access: no path is touched
and the state is unchanged. -/
theorem segment_traversal_guard (st : SystemState) (session_id : Nat)
    (segment_file : String) (fsExists : String → Bool) (now : Int)
    (h : (strContains segment_file ".." || strContains segment_file "/" ||
          strContains segment_file "\\") = true) :
    get_segment_route st session_id segment_file fsExists now =
      (.invalidRequest, [], st) := by
  unfold get_segment_route
  rw [if_pos h]

/-- Closed instance of C8: a traversal filename is rejected with no
filesystem access even when every path would exist. -/
theorem segment_traversal_guard_w :
    get_segment_route exState 0 "../../etc/passwd" (fun _ => true) 7 =
      (.invalidRequest, [], exState) :=
  segment_traversal_guard exState 0 "../../etc/passwd" (fun _ => true) 7
    (by decide)

/-- First value following the first occurrence of a flag in an argument
vector. -/
def argAfter : List String → String → Option String
  | [], _ => none
  | [_], _ => none
  | a :: b :: t, flag => if a == flag then some b else argAfter (b :: t) flag

/-- C9 counterexample: the transcoder invocation does NOT use the
configured playlist window size.  `spawn_process` hardcodes
`-hls_list_size 5` (`ffmpeg_manager.py:92`) while the configured
`settings.hls_playlist_size` is `3` (`config.py:51`), so the sliding
playlist window differs from the configured window size. -/
theorem spawn_cmd_playlist_window_cex :
    argAfter (spawn_cmd camUrl "/tmp/hls_streams/0" none none true)
        "-hls_list_size" = some "5"
    ∧ settings.hls_playlist_size = 3
    ∧ some "5" ≠ some (toString settings.hls_playlist_size) := by
  exact ⟨rfl, rfl, by decide⟩

/-- `pat` occurs as a consecutive run of arguments inside `cmd`. -/
def argsWithin (pat cmd : List String) : Prop :=
  ∃ s t, cmd = s ++ (pat ++ t)

/-- C9 (amended): every constructed transcoder invocation uses TCP
transport, copies the video stream without re-encoding, re-encodes audio
to AAC, produces segmented HLS with 2-second segments (a hard-coded
value equal to the configured default), keeps a sliding playlist window
of the last 5 segments (hard-coded; the configured playlist window size
of 3 is not consumed), enables automatic deletion of superseded
segments, and names segment files by the incrementing counter pattern
`segment_%03d.ts`. -/
theorem spawn_cmd_policies (rtsp_url output_dir : String)
    (username password : Option String) (hwaccel : Bool) :
    argsWithin ["-rtsp_transport", "tcp"]
        (spawn_cmd rtsp_url output_dir username password hwaccel)
    ∧ argsWithin ["-c:v", "copy"]
        (spawn_cmd rtsp_url output_dir username password hwaccel)
    ∧ argsWithin ["-c:a", "aac"]
        (spawn_cmd rtsp_url output_dir username password hwaccel)
    ∧ argsWithin ["-f", "hls"]
        (spawn_cmd rtsp_url output_dir username password hwaccel)
    ∧ argsWithin ["-hls_time", "2"]
        (spawn_cmd rtsp_url output_dir username password hwaccel)
    ∧ argsWithin ["-hls_list_size", "5"]
        (spawn_cmd rtsp_url output_dir username password hwaccel)
    ∧ argsWithin ["-hls_flags", "delete_segments"]
        (spawn_cmd rtsp_url output_dir username password hwaccel)
    ∧ argsWithin ["-hls_segment_filename", output_dir ++ "/segment_%03d.ts"]
        (spawn_cmd rtsp_url output_dir username password hwaccel) := by
  cases hwaccel
  · refine ⟨⟨["ffmpeg"], _, rfl⟩,
      ⟨_ :: _ :: _ :: _ :: _ :: [], _, rfl⟩,
      ⟨_ :: _ :: _ :: _ :: _ :: _ :: _ :: [], _, rfl⟩,
      ⟨_ :: _ :: _ :: _ :: _ :: _ :: _ :: _ :: _ :: [], _, rfl⟩,
      ⟨_ :: _ :: _ :: _ :: _ :: _ :: _ :: _ :: _ :: _ :: _ :: [], _, rfl⟩,
      ⟨_ :: _ :: _ :: _ :: _ :: _ :: _ :: _ :: _ :: _ :: _ :: _ :: _ :: [], _, rfl⟩,
      ⟨_ :: _ :: _ :: _ :: _ :: _ :: _ :: _ :: _ :: _ :: _ :: _ :: _ :: _ :: _ :: [], _, rfl⟩,
      ⟨_ :: _ :: _ :: _ :: _ :: _ :: _ :: _ :: _ :: _ :: _ :: _ :: _ :: _ :: _ :: _ :: _ :: [], _, rfl⟩⟩
  · refine ⟨⟨["ffmpeg", "-hwaccel", "auto"], _, rfl⟩,
      ⟨_ :: _ :: _ :: _ :: _ :: _ :: _ :: [], _, rfl⟩,
      ⟨_ :: _ :: _ :: _ :: _ :: _ :: _ :: _ :: _ :: [], _, rfl⟩,
      ⟨_ :: _ :: _ :: _ :: _ :: _ :: _ :: _ :: _ :: _ :: _ :: [], _, rfl⟩,
      ⟨_ :: _ :: _ :: _ :: _ :: _ :: _ :: _ :: _ :: _ :: _ :: _ :: _ :: [], _, rfl⟩,
      ⟨_ :: _ :: _ :: _ :: _ :: _ :: _ :: _ :: _ :: _ :: _ :: _ :: _ :: _ :: _ :: [], _, rfl⟩,
      ⟨_ :: _ :: _ :: _ :: _ :: _ :: _ :: _ :: _ :: _ :: _ :: _ :: _ :: _ :: _ :: _ :: _ :: [], _, rfl⟩,
      ⟨_ :: _ :: _ :: _ :: _ :: _ :: _ :: _ :: _ :: _ :: _ :: _ :: _ :: _ :: _ :: _ :: _ :: _ :: _ :: [], _, rfl⟩⟩

/-- C10: credentials are composed into the RTSP URL only when both a
username and a password are given and non-empty (Python truthiness).
Whenever exactly one of the two is given, the connection-test probe, the
metadata probe and the transcoder invocation all run against the bare
URL: the URL argument each command carries is the input URL unchanged. -/
theorem credentials_all_or_nothing (rtsp_url : String)
    (username password : Option String)
    (h : truthy username ≠ truthy password) :
    build_url_with_credentials rtsp_url username password = rtsp_url
    ∧ test_connection_cmd rtsp_url username password =
        ["ffprobe", "-rtsp_transport", "tcp", "-timeout", "10000000",
         "-v", "error", "-select_streams", "v:0",
         "-show_entries", "stream=codec_name",
         "-of", "default=noprint_wrappers=1:nokey=1"] ++ [rtsp_url]
    ∧ probe_metadata_cmd rtsp_url username password =
        ["ffprobe", "-rtsp_transport", "tcp", "-timeout", "10000000",
         "-v", "error", "-select_streams", "v:0",
         "-show_entries", "stream=codec_name,width,height,r_frame_rate",
         "-of", "json"] ++ [rtsp_url]
    ∧ ∀ output_dir hwaccel,
        argsWithin ["-i", rtsp_url]
          (spawn_cmd rtsp_url output_dir username password hwaccel) := by
  have hb : (truthy username && truthy password) = false := by
    cases hu : truthy username <;> cases hp : truthy password <;>
      simp_all
  have hurl : build_url_with_credentials rtsp_url username password =
      rtsp_url := by
    unfold build_url_with_credentials
    rw [hb]
    rfl
  refine ⟨hurl, ?_, ?_, ?_⟩
  · unfold test_connection_cmd
    rw [hurl]
    rfl
  · unfold probe_metadata_cmd
    rw [hurl]
    rfl
  · intro output_dir hwaccel
    cases hwaccel
    · exact ⟨["ffmpeg", "-rtsp_transport", "tcp"], _, by
        unfold spawn_cmd; rw [hurl]; rfl⟩
    · exact ⟨["ffmpeg", "-hwaccel", "auto", "-rtsp_transport", "tcp"], _, by
        unfold spawn_cmd; rw [hurl]; rfl⟩

/-- Closed instance of C10: with a username but no password, all three
invocations use the bare URL. -/
theorem credentials_all_or_nothing_w :
    build_url_with_credentials camUrl (some "admin") none = camUrl
    ∧ test_connection_cmd camUrl (some "admin") none =
        ["ffprobe", "-rtsp_transport", "tcp", "-timeout", "10000000",
         "-v", "error", "-select_streams", "v:0",
         "-show_entries", "stream=codec_name",
         "-of", "default=noprint_wrappers=1:nokey=1"] ++ [camUrl]
    ∧ probe_metadata_cmd camUrl (some "admin") none =
        ["ffprobe", "-rtsp_transport", "tcp", "-timeout", "10000000",
         "-v", "error", "-select_streams", "v:0",
         "-show_entries", "stream=codec_name,width,height,r_frame_rate",
         "-of", "json"] ++ [camUrl]
    ∧ ∀ output_dir hwaccel,
        argsWithin ["-i", camUrl]
          (spawn_cmd camUrl output_dir (some "admin") none hwaccel) :=
  credentials_all_or_nothing camUrl (some "admin") none (by decide)

/-- `pyRoundAux` lands on a nearest integer: twice the distance between
the rounded value and the exact fraction is at most the denominator. -/
theorem pyRoundAux_nearest (n d : Int) (hd : 0 < d) :
    2 * (pyRoundAux n d * d - n).natAbs ≤ d.natAbs := by
  unfold pyRoundAux
  have h0 : 0 ≤ n.emod d := Int.emod_nonneg n (by omega)
  have h1 : n.emod d < d := Int.emod_lt_of_pos n hd
  have heq : d * (n.ediv d) + n.emod d = n := Int.ediv_add_emod n d
  have e1 : n.ediv d * d - n = -(n.emod d) := by linear_combination heq
  have e2 : (n.ediv d + 1) * d - n = d - n.emod d := by linear_combination heq
  split
  · rw [e1]; omega
  · split
    · rw [e2]; omega
    · split
      · rw [e1]; omega
      · rw [e2]; omega

/-- `pyRound` lands on a nearest integer (positive denominator). -/
theorem pyRound_nearest (n d : Int) (hd : 0 < d) :
    2 * (pyRound n d * d - n).natAbs ≤ d.natAbs := by
  unfold pyRound
  rw [if_neg (by omega)]
  exact pyRoundAux_nearest n d hd

/-- C7 counterexample: once connectivity is confirmed, session creation
CAN still fail because of metadata probing.  `probe_stream_metadata`
itself returns normally (fps `120` from `r_frame_rate = "120/1"`), but
constructing `StreamMetadata` then violates the pydantic bound
`fps ≤ 60` (`models/connection.py:31`), so `create_session` raises and
the connect handler answers 500 — even though `test_connection`
succeeded and the transcoder spawn would have succeeded. -/
theorem probe_metadata_blocks_creation_cex :
    test_connection camUrl none none goodConn = .ok (true, "h264")
    ∧ (probe_stream_metadata fastMeta).fps = 120
    ∧ (create_session settings initialState camUrl none none goodConn
         fastMeta true 100).1 = .error .metadataValidation
    ∧ (connect_camera settings initialState camUrl none none goodConn
         fastMeta true 100).1 = .error .internalError500 := by
  exact ⟨rfl, rfl, rfl, rfl⟩

/-- C7 (amended): `probe_stream_metadata` itself never propagates an
error — every failing probe outcome yields the fixed default metadata
`{unknown, h264, 30}`; on success the frame rate is a nearest integer of
the reported numerator/denominator fraction; and when the probed
metadata satisfies the `StreamMetadata` field constraints, session
creation (with a successful connectivity test and spawn) succeeds —
creation can still fail on metadata whose values violate those
constraints, as the counterexample records. -/
theorem probe_metadata_best_effort :
    (probe_stream_metadata .failure = ⟨"unknown", "h264", 30⟩)
    ∧ (∀ (w h : Option Nat) (cn : Option String) (s a b : String)
         (num den : Int),
         pySplitSlash s = [a, b] → pyInt? a = some num →
         pyInt? b = some den → 0 < den →
         2 * ((probe_stream_metadata (.success w h cn (some s))).fps * den
                - num).natAbs ≤ den.natAbs)
    ∧ (∀ (cfg : Settings) (st : SystemState) (url : String)
         (u p : Option String) (cp : ProbeResult)
         (mp : MetadataProbeOutcome) (now : Int) (c : String),
         test_connection url u p cp = .ok (true, c) →
         (probe_stream_metadata mp).isValid = true →
         (create_session cfg st url u p cp mp true now).1 = .ok st.nextId) := by
  refine ⟨rfl, ?_, ?_⟩
  · intro w h cn s a b num den hsplit ha hb hden
    have hfps : (probe_stream_metadata (.success w h cn (some s))).fps =
        pyRound num den := by
      simp only [probe_stream_metadata, Option.getD_some, parse_frame_rate,
        hsplit, ha, hb]
      rw [if_neg (by omega)]
    rw [hfps]
    exact pyRound_nearest num den hden
  · intro cfg st url u p cp mp now c hconn hmd
    simp [create_session, hconn, hmd, create_session_tail]

/-- Closed instance of C7's amended claim: the NTSC fraction
`30000/1001` rounds to a nearest integer, and creation at the fixture
inputs succeeds with identifier `0`. -/
theorem probe_metadata_best_effort_w :
    2 * (((probe_stream_metadata
            (.success (some 1920) (some 1080) (some "h264")
              (some "30000/1001"))).fps) * 1001 - 30000).natAbs ≤
        (1001 : Int).natAbs
    ∧ (create_session settings initialState camUrl none none goodConn
         goodMeta true 100).1 = .ok initialState.nextId :=
  ⟨probe_metadata_best_effort.2.1 (some 1920) (some 1080) (some "h264")
      "30000/1001" "30000" "1001" 30000 1001 rfl rfl rfl (by decide),
   probe_metadata_best_effort.2.2 settings initialState camUrl none none
      goodConn goodMeta 100 "h264" rfl rfl⟩

/-- A codec string passes the source's membership test against
`SUPPORTED_CODECS = {h264, hevc, h265}` exactly when its normalized form
(`hevc → h265`) lies in `{h264, h265}`. -/
theorem contains_supported_iff (c : String) :
    SUPPORTED_CODECS.contains c = true ↔
      (if c == "hevc" then "h265" else c) ∈ (["h264", "h265"] : List String) := by
  by_cases h1 : c = "h264" <;> by_cases h2 : c = "hevc" <;>
    by_cases h3 : c = "h265" <;> simp_all [SUPPORTED_CODECS]

/-- C6: for every failed probe run, `test_connection` classifies the
failure by the diagnostic text in priority order — `401`/`Unauthorized`
first (authentication-required), then connection-refused/no-route
(unreachable), then timed-out (timeout), otherwise a generic connection
failure quoting at most 200 characters of the diagnostic; and for every
successful run, the reported codec `hevc` is normalized to `h265`, a
codec whose normalized form lies outside `{h264, h265}` is rejected with
an unsupported-codec error naming the detected codec, and one whose
normalized form lies inside is accepted as that normalized form. -/
theorem test_connection_classification :
    (∀ (url : String) (u p : Option String) (rc : Int) (out err : String),
       validate_url_format url = true → (rc != 0) = true →
       (strContains err "401" || strContains err "Unauthorized") = true →
       test_connection url u p (.exited rc out err) =
         .error (.authenticationError
           "Authentication required. Please provide username and password."))
    ∧ (∀ (url : String) (u p : Option String) (rc : Int) (out err : String),
       validate_url_format url = true → (rc != 0) = true →
       (strContains err "401" || strContains err "Unauthorized") = false →
       (strContains err "Connection refused" ||
          strContains err "No route to host") = true →
       test_connection url u p (.exited rc out err) =
         .error (.rtspConnectionError
           "Cannot reach camera. Check IP address and network connection."))
    ∧ (∀ (url : String) (u p : Option String) (rc : Int) (out err : String),
       validate_url_format url = true → (rc != 0) = true →
       (strContains err "401" || strContains err "Unauthorized") = false →
       (strContains err "Connection refused" ||
          strContains err "No route to host") = false →
       strContains err "Connection timed out" = true →
       test_connection url u p (.exited rc out err) =
         .error (.timeoutError "Connection timeout. Camera not responding."))
    ∧ (∀ (url : String) (u p : Option String) (rc : Int) (out err : String),
       validate_url_format url = true → (rc != 0) = true →
       (strContains err "401" || strContains err "Unauthorized") = false →
       (strContains err "Connection refused" ||
          strContains err "No route to host") = false →
       strContains err "Connection timed out" = false →
       test_connection url u p (.exited rc out err) =
         .error (.rtspConnectionError
           ("Failed to connect to camera: " ++ sliceTo200 err)))
    ∧ (∀ (url : String) (u p : Option String) (out err : String),
       validate_url_format url = true →
       pyLower (pyStrip out) = "hevc" →
       test_connection url u p (.exited 0 out err) = .ok (true, "h265"))
    ∧ (∀ (url : String) (u p : Option String) (out err : String) (c : String),
       validate_url_format url = true →
       pyLower (pyStrip out) = c →
       (if c == "hevc" then "h265" else c) ∉ (["h264", "h265"] : List String) →
       test_connection url u p (.exited 0 out err) =
         .error (.unsupportedCodecError
           ("Unsupported video format. Camera must use H.264 or H.265 codec. Detected: "
             ++ c)))
    ∧ (∀ (url : String) (u p : Option String) (out err : String) (c : String),
       validate_url_format url = true →
       pyLower (pyStrip out) = c →
       (if c == "hevc" then "h265" else c) ∈ (["h264", "h265"] : List String) →
       test_connection url u p (.exited 0 out err) =
         .ok (true, if c == "hevc" then "h265" else c)) := by
  refine ⟨?_, ?_, ?_, ?_, ?_, ?_, ?_⟩
  · intro url u p rc out err hv hrc hauth
    simp [test_connection, hv, hrc, hauth]
  · intro url u p rc out err hv hrc hauth hconn
    simp [test_connection, hv, hrc, hauth, hconn]
  · intro url u p rc out err hv hrc hauth hconn htime
    simp [test_connection, hv, hrc, hauth, hconn, htime]
  · intro url u p rc out err hv hrc hauth hconn htime
    simp [test_connection, hv, hrc, hauth, hconn, htime]
  · intro url u p out err hv hc
    simp [test_connection, hv, hc, SUPPORTED_CODECS]
  · intro url u p out err c hv hc hmem
    have hcont : SUPPORTED_CODECS.contains c = false := by
      cases hb : SUPPORTED_CODECS.contains c
      · rfl
      · exact absurd ((contains_supported_iff c).1 hb) hmem
    simp only [test_connection, hv, hc, hcont]
    simp
  · intro url u p out err c hv hc hmem
    have hcont : SUPPORTED_CODECS.contains c = true :=
      (contains_supported_iff c).2 hmem
    simp only [test_connection, hv, hc, hcont]
    simp

/-- Closed instances of C6: each classification branch, the `hevc`
normalization, and the `vp9` rejection naming `vp9`, at concrete
inputs. -/
theorem test_connection_classification_w :
    test_connection camUrl none none
        (.exited 1 "" "server returned 401 Unauthorized") =
      .error (.authenticationError
        "Authentication required. Please provide username and password.")
    ∧ test_connection camUrl none none (.exited 1 "" "Connection refused") =
        .error (.rtspConnectionError
          "Cannot reach camera. Check IP address and network connection.")
    ∧ test_connection camUrl none none (.exited 1 "" "Connection timed out") =
        .error (.timeoutError "Connection timeout. Camera not responding.")
    ∧ test_connection camUrl none none (.exited 1 "" "mystery failure") =
        .error (.rtspConnectionError
          ("Failed to connect to camera: " ++ sliceTo200 "mystery failure"))
    ∧ test_connection camUrl none none (.exited 0 "hevc\n" "") =
        .ok (true, "h265")
    ∧ test_connection camUrl none none (.exited 0 "vp9\n" "") =
        .error (.unsupportedCodecError
          ("Unsupported video format. Camera must use H.264 or H.265 codec. Detected: "
            ++ "vp9"))
    ∧ test_connection camUrl none none (.exited 0 "h264\n" "") =
        .ok (true, if "h264" == "hevc" then "h265" else "h264") :=
  ⟨test_connection_classification.1 camUrl none none 1 ""
      "server returned 401 Unauthorized" (by decide) (by decide) (by decide),
   test_connection_classification.2.1 camUrl none none 1 ""
      "Connection refused" (by decide) (by decide) (by decide) (by decide),
   test_connection_classification.2.2.1 camUrl none none 1 ""
      "Connection timed out" (by decide) (by decide) (by decide) (by decide)
      (by decide),
   test_connection_classification.2.2.2.1 camUrl none none 1 ""
      "mystery failure" (by decide) (by decide) (by decide) (by decide)
      (by decide),
   test_connection_classification.2.2.2.2.1 camUrl none none "hevc\n" ""
      (by decide) (by decide),
   test_connection_classification.2.2.2.2.2.1 camUrl none none "vp9\n" ""
      "vp9" (by decide) (by decide) (by decide),
   test_connection_classification.2.2.2.2.2.2 camUrl none none "h264\n" ""
      "h264" (by decide) (by decide) (by decide)⟩

/-- C5: after one reaper sweep over any registry state whose map keys
are (as Python `dict` keys) pairwise distinct — including the empty
state, on which the sweep is the identity — every session whose idle
time strictly exceeds the session timeout is destroyed, every session
whose process is no longer alive is destroyed, and every session whose
idle time does not exceed the timeout and whose process is alive remains
untouched.  In particular a session with
`last_activity = now − timeout − 1` is removed while one with
`last_activity = now − timeout + 1` (and a live process) survives. -/
theorem reaper_sweep_correct (cfg : Settings) (now : Int) (st : SystemState)
    (hnd : (st.active_sessions.map (·.session_id)).Nodup) :
    (st.active_sessions = [] → reaper_sweep cfg now st = st)
    ∧ (∀ s ∈ st.active_sessions,
         now - s.last_activity > cfg.session_timeout →
         get_session (reaper_sweep cfg now st) s.session_id = none)
    ∧ (∀ s ∈ st.active_sessions,
         mgr_is_session_active st s.session_id = false →
         get_session (reaper_sweep cfg now st) s.session_id = none)
    ∧ (∀ s ∈ st.active_sessions,
         now - s.last_activity ≤ cfg.session_timeout →
         mgr_is_session_active st s.session_id = true →
         get_session (reaper_sweep cfg now st) s.session_id = some s) := by
  have hclean : cleanup_expired_sessions cfg now st =
      ((st.active_sessions.filter
          (fun s => decide (now - s.last_activity > cfg.session_timeout))).map
          (·.session_id)).foldl (fun acc sid => destroy_session acc sid) st :=
    rfl
  have hsweep : reaper_sweep cfg now st =
      (((cleanup_expired_sessions cfg now st).active_sessions.map
          (·.session_id)).filter
          (fun sid =>
            !mgr_is_session_active (cleanup_expired_sessions cfg now st) sid)).foldl
        (fun acc sid => destroy_session acc sid)
        (cleanup_expired_sessions cfg now st) := rfl
  refine ⟨?_, ?_, ?_, ?_⟩
  · intro h
    simp [reaper_sweep, cleanup_expired_sessions, monitor_ffmpeg_processes, h]
  · intro s hs hexp
    have hmemE : s.session_id ∈
        (st.active_sessions.filter
          (fun x => decide (now - x.last_activity > cfg.session_timeout))).map
          (·.session_id) :=
      List.mem_map_of_mem _ (List.mem_filter.2 ⟨hs, by simpa using hexp⟩)
    have h1 : get_session (cleanup_expired_sessions cfg now st)
        s.session_id = none := by
      rw [hclean]; exact foldl_destroy_mem _ _ hmemE
    rw [hsweep]
    exact foldl_destroy_none _ _ h1
  · intro s hs hdead
    by_cases hmemE : s.session_id ∈
        (st.active_sessions.filter
          (fun x => decide (now - x.last_activity > cfg.session_timeout))).map
          (·.session_id)
    · have h1 : get_session (cleanup_expired_sessions cfg now st)
          s.session_id = none := by
        rw [hclean]; exact foldl_destroy_mem _ _ hmemE
      rw [hsweep]
      exact foldl_destroy_none _ _ h1
    · have h1 : get_session (cleanup_expired_sessions cfg now st)
          s.session_id = get_session st s.session_id := by
        rw [hclean]; exact foldl_destroy_not_mem _ _ hmemE
      have h2 : get_session st s.session_id = some s :=
        find?_id_of_mem_nodup hs hnd
      have h3 : lookupProc (cleanup_expired_sessions cfg now st)
          s.session_id = lookupProc st s.session_id := by
        rw [hclean]; exact foldl_destroy_procs_not_mem _ _ hmemE
      have halive1 : mgr_is_session_active (cleanup_expired_sessions cfg now st)
          s.session_id = false := by
        unfold mgr_is_session_active at hdead ⊢
        rw [h3]; exact hdead
      have hs1 : s ∈ (cleanup_expired_sessions cfg now st).active_sessions :=
        List.mem_of_find?_eq_some (h1.trans h2)
      have hcr : s.session_id ∈
          ((cleanup_expired_sessions cfg now st).active_sessions.map
            (·.session_id)).filter
            (fun sid =>
              !mgr_is_session_active (cleanup_expired_sessions cfg now st) sid) :=
        List.mem_filter.2 ⟨List.mem_map_of_mem _ hs1, by simp [halive1]⟩
      rw [hsweep]
      exact foldl_destroy_mem _ _ hcr
  · intro s hs hle halive
    have hmemE : s.session_id ∉
        (st.active_sessions.filter
          (fun x => decide (now - x.last_activity > cfg.session_timeout))).map
          (·.session_id) := by
      intro hmem
      rcases List.mem_map.1 hmem with ⟨s', hs', he⟩
      have hs'mem := (List.mem_filter.1 hs').1
      have hcond := (List.mem_filter.1 hs').2
      have heq : s' = s := eq_of_mem_nodup_id hs'mem hs hnd he
      subst heq
      simp only [decide_eq_true_eq] at hcond
      omega
    have h1 : get_session (cleanup_expired_sessions cfg now st)
        s.session_id = get_session st s.session_id := by
      rw [hclean]; exact foldl_destroy_not_mem _ _ hmemE
    have h2 : get_session st s.session_id = some s :=
      find?_id_of_mem_nodup hs hnd
    have h3 : lookupProc (cleanup_expired_sessions cfg now st)
        s.session_id = lookupProc st s.session_id := by
      rw [hclean]; exact foldl_destroy_procs_not_mem _ _ hmemE
    have halive1 : mgr_is_session_active (cleanup_expired_sessions cfg now st)
        s.session_id = true := by
      unfold mgr_is_session_active at halive ⊢
      rw [h3]; exact halive
    have hnotcr : s.session_id ∉
        ((cleanup_expired_sessions cfg now st).active_sessions.map
          (·.session_id)).filter
          (fun sid =>
            !mgr_is_session_active (cleanup_expired_sessions cfg now st) sid) := by
      intro hmem
      have hflag := (List.mem_filter.1 hmem).2
      rw [halive1] at hflag
      simp at hflag
    rw [hsweep, foldl_destroy_not_mem _ _ hnotcr, h1]
    exact h2

/-- Fixture for C5: a session one second beyond the timeout. -/
def reapSessOld : HLSSession :=
  ⟨0, camUrl, "/tmp/hls_streams/0", exMeta, 0, 10000 - 3600 - 1⟩

/-- Fixture for C5: a session one second within the timeout. -/
def reapSessNew : HLSSession :=
  ⟨1, camUrl, "/tmp/hls_streams/1", exMeta, 0, 10000 - 3600 + 1⟩

/-- Fixture registry for C5 holding both sessions with live processes. -/
def reapState : SystemState :=
  ⟨[reapSessOld, reapSessNew],
   [(0, ⟨true, "/tmp/hls_streams/0"⟩), (1, ⟨true, "/tmp/hls_streams/1"⟩)],
   ["/tmp/hls_streams/0", "/tmp/hls_streams/1"], 2⟩

/-- Closed instance of C5 at `now = 10000` with the default one-hour
timeout: the session idle for `timeout + 1` seconds is removed by the
sweep and the one idle for `timeout − 1` seconds survives. -/
theorem reaper_sweep_correct_w :
    get_session (reaper_sweep settings 10000 reapState) 0 = none
    ∧ get_session (reaper_sweep settings 10000 reapState) 1 = some reapSessNew :=
  ⟨(reaper_sweep_correct settings 10000 reapState (by decide)).2.1
      reapSessOld (by decide) (by decide),
   (reaper_sweep_correct settings 10000 reapState (by decide)).2.2.2
      reapSessNew (by decide) (by decide) (by decide)⟩

end Timelapser
